import Mathlib

/-!
Verification of the request-signing backend (`src/app.py`) against its
specification.  The development shallowly embeds the Python source:

* Python `dict`/`list`/`str`/`int`/`bool`/`None` JSON values become the
  inductive type `Json`; `json.dumps` with its two separator configurations
  becomes `dumps`.
* `hashlib.sha256` becomes an executable FIPS 180-4 SHA-256 over byte lists,
  `hmac.new(..., hashlib.sha256)` becomes `hmacSha256`.
* `sign_paapi_request` and the `/api/search` handler `search_products` are
  translated line by line; the call to `datetime.datetime.utcnow()` is made
  an explicit `DateTime` parameter (the clock is the only implicit input of
  the Python function).
* Network effects are out of scope: the handler model receives the upstream
  JSON response as a parameter and records the outbound request it would
  send, mirroring the `requests.post(...)` call site.  A `TypeError` raised
  while parsing that response (app.py lines 144-145) is modelled as the
  handler's catch-all 500 of line 173.
-/

/-- JSON values as produced by Python: `None`, `bool`, `int`, `str`,
`list`, `dict` (insertion-ordered association list). -/
inductive Json where
  | null : Json
  | bool (b : Bool) : Json
  | num (n : Int) : Json
  | str (s : String) : Json
  | arr (items : List Json) : Json
  | obj (fields : List (String × Json)) : Json
deriving Repr

/-- Lowercase hexadecimal digit, as Python `'%x'` formatting produces. -/
def hexDigit : Nat → Char
  | 0 => '0' | 1 => '1' | 2 => '2' | 3 => '3' | 4 => '4'
  | 5 => '5' | 6 => '6' | 7 => '7' | 8 => '8' | 9 => '9'
  | 10 => 'a' | 11 => 'b' | 12 => 'c' | 13 => 'd' | 14 => 'e' | 15 => 'f'
  | _ => '0'

/-- `\uXXXX` escape used by `json.dumps` with `ensure_ascii=True`
(lowercase hex digits). -/
def unicodeEscape (n : Nat) : List Char :=
  ['\\', 'u', hexDigit (n / 4096 % 16), hexDigit (n / 256 % 16),
   hexDigit (n / 16 % 16), hexDigit (n % 16)]

/-- Escaping of one character inside a JSON string literal, following
CPython `json.encoder.py_encode_basestring_ascii`: printable ASCII other
than quote and backslash passes through, the two-character escapes are used
for the usual control characters, everything else becomes `\uXXXX`
(a surrogate pair above the BMP). -/
def escapeChar (c : Char) : List Char :=
  if c = '"' then ['\\', '"']
  else if c = '\\' then ['\\', '\\']
  else if c = '\n' then ['\\', 'n']
  else if c = '\t' then ['\\', 't']
  else if c = '\r' then ['\\', 'r']
  else if c.toNat = 8 then ['\\', 'b']
  else if c.toNat = 12 then ['\\', 'f']
  else if 32 ≤ c.toNat ∧ c.toNat < 127 then [c]
  else if c.toNat < 0x10000 then unicodeEscape c.toNat
  else
    unicodeEscape (0xD800 + (c.toNat - 0x10000) / 0x400) ++
    unicodeEscape (0xDC00 + (c.toNat - 0x10000) % 0x400)

/-- A JSON string literal: quote, escaped characters, quote. -/
def encodeString (s : String) : String :=
  String.mk ('"' :: (s.data.map escapeChar).flatten ++ ['"'])

mutual

/-- `json.dumps(v, separators=(itemSep, kvSep))`: Python JSON serialization
with explicit item and key/value separators.  The default call
`json.dumps(v)` uses `", "` and `": "`; the compact call inside the signer
uses `","` and `":"`. -/
def dumps (itemSep kvSep : String) : Json → String
  | Json.null => "null"
  | Json.bool true => "true"
  | Json.bool false => "false"
  | Json.num n => toString n
  | Json.str s => encodeString s
  | Json.arr items => "[" ++ dumpsArr itemSep kvSep items ++ "]"
  | Json.obj fields => "\x7b" ++ dumpsObj itemSep kvSep fields ++ "\x7d"

/-- Serialize array elements joined by `itemSep`. -/
def dumpsArr (itemSep kvSep : String) : List Json → String
  | [] => ""
  | [x] => dumps itemSep kvSep x
  | x :: y :: rest => dumps itemSep kvSep x ++ itemSep ++ dumpsArr itemSep kvSep (y :: rest)

/-- Serialize object fields `key kvSep value` joined by `itemSep`,
in insertion order (Python `sort_keys=False`). -/
def dumpsObj (itemSep kvSep : String) : List (String × Json) → String
  | [] => ""
  | [(k, v)] => encodeString k ++ kvSep ++ dumps itemSep kvSep v
  | (k, v) :: f :: rest =>
      encodeString k ++ kvSep ++ dumps itemSep kvSep v ++ itemSep ++
      dumpsObj itemSep kvSep (f :: rest)

end

/-- `json.dumps(v)` — the default separators `(', ', ': ')` used at the
`requests.post` call site (app.py line 139). -/
def dumpsDefault (v : Json) : String := dumps ", " ": " v

/-- `json.dumps(v, separators=(',', ':'))` — the compact form hashed inside
`sign_paapi_request` (app.py line 61). -/
def dumpsCompact (v : Json) : String := dumps "," ":" v

/-- UTF-8 bytes of one character. -/
def utf8Char (c : Char) : List Nat :=
  let n := c.toNat
  if n < 0x80 then [n]
  else if n < 0x800 then [0xC0 + n / 64, 0x80 + n % 64]
  else if n < 0x10000 then
    [0xE0 + n / 4096, 0x80 + n / 64 % 64, 0x80 + n % 64]
  else
    [0xF0 + n / 0x40000, 0x80 + n / 4096 % 64, 0x80 + n / 64 % 64, 0x80 + n % 64]

/-- Python `s.encode('utf-8')`: the UTF-8 byte string of `s`, each byte a
`Nat` below 256. -/
def utf8Encode (s : String) : List Nat :=
  (s.data.map utf8Char).flatten

/-- Python truthiness of a JSON value: `None`, `False`, `0`, `""`, `[]`
and the empty dict are falsy, everything else truthy. -/
def truthy : Json → Bool
  | Json.null => false
  | Json.bool b => b
  | Json.num n => n ≠ 0
  | Json.str s => s ≠ ""
  | Json.arr items => !items.isEmpty
  | Json.obj fields => !fields.isEmpty

/-- First binding of a key in an insertion-ordered field list. -/
def jgetFields : List (String × Json) → String → Option Json
  | [], _ => none
  | (k, v) :: rest, key => if k = key then some v else jgetFields rest key

/-- Python `d[k]` / `k in d` on a JSON object: first binding of `k` in
insertion order, `none` when the key is absent or the value is not a dict. -/
def jget : Json → String → Option Json
  | Json.obj fields, key => jgetFields fields key
  | _, _ => none

/-- Whether a JSON value is a Python dict. -/
def Json.isObj : Json → Bool
  | Json.obj _ => true
  | _ => false

/-! ### SHA-256 (FIPS 180-4), the `hashlib.sha256` primitive

Bytes are `Nat` values below 256; 32-bit words are `Nat` values reduced
modulo `2 ^ 32` at every arithmetic step. -/

/-- Rotate a 32-bit word right by `n` bits. -/
def rotr32 (n x : Nat) : Nat :=
  ((x >>> n) ||| (x <<< (32 - n))) % 2 ^ 32

/-- SHA-256 big sigma-0. -/
def bSig0 (x : Nat) : Nat := rotr32 2 x ^^^ rotr32 13 x ^^^ rotr32 22 x

/-- SHA-256 big sigma-1. -/
def bSig1 (x : Nat) : Nat := rotr32 6 x ^^^ rotr32 11 x ^^^ rotr32 25 x

/-- SHA-256 small sigma-0. -/
def sSig0 (x : Nat) : Nat := rotr32 7 x ^^^ rotr32 18 x ^^^ (x >>> 3)

/-- SHA-256 small sigma-1. -/
def sSig1 (x : Nat) : Nat := rotr32 17 x ^^^ rotr32 19 x ^^^ (x >>> 10)

/-- SHA-256 choose. -/
def chFn (e f g : Nat) : Nat := (e &&& f) ^^^ ((e ^^^ 0xFFFFFFFF) &&& g)

/-- SHA-256 majority. -/
def majFn (a b c : Nat) : Nat := (a &&& b) ^^^ (a &&& c) ^^^ (b &&& c)

/-- The 64 SHA-256 round constants (FIPS 180-4 section 4.2.2), in groups of
eight rounds. -/
def sha256K : List Nat :=
  [0x428a2f98, 0x71374491, 0xb5c0fbcf, 0xe9b5dba5,
   0x3956c25b, 0x59f111f1, 0x923f82a4, 0xab1c5ed5] ++
  [0xd807aa98, 0x12835b01, 0x243185be, 0x550c7dc3,
   0x72be5d74, 0x80deb1fe, 0x9bdc06a7, 0xc19bf174] ++
  [0xe49b69c1, 0xefbe4786, 0x0fc19dc6, 0x240ca1cc,
   0x2de92c6f, 0x4a7484aa, 0x5cb0a9dc, 0x76f988da] ++
  [0x983e5152, 0xa831c66d, 0xb00327c8, 0xbf597fc7,
   0xc6e00bf3, 0xd5a79147, 0x06ca6351, 0x14292967] ++
  [0x27b70a85, 0x2e1b2138, 0x4d2c6dfc, 0x53380d13,
   0x650a7354, 0x766a0abb, 0x81c2c92e, 0x92722c85] ++
  [0xa2bfe8a1, 0xa81a664b, 0xc24b8b70, 0xc76c51a3,
   0xd192e819, 0xd6990624, 0xf40e3585, 0x106aa070] ++
  [0x19a4c116, 0x1e376c08, 0x2748774c, 0x34b0bcb5,
   0x391c0cb3, 0x4ed8aa4a, 0x5b9cca4f, 0x682e6ff3] ++
  [0x748f82ee, 0x78a5636f, 0x84c87814, 0x8cc70208,
   0x90befffa, 0xa4506ceb, 0xbef9a3f7, 0xc67178f2]

/-- SHA-256 working state: eight 32-bit words. -/
structure Sha256State where
  w0 : Nat
  w1 : Nat
  w2 : Nat
  w3 : Nat
  w4 : Nat
  w5 : Nat
  w6 : Nat
  w7 : Nat

/-- The SHA-256 initial hash value. -/
def sha256Init : Sha256State :=
  ⟨0x6a09e667, 0xbb67ae85, 0x3c6ef372, 0xa54ff53a,
   0x510e527f, 0x9b05688c, 0x1f83d9ab, 0x5be0cd19⟩

/-- Message padding: `0x80`, zeros to 56 mod 64, then the bit length as an
8-byte big-endian integer. -/
def sha256Pad (len : Nat) : List Nat :=
  [0x80] ++ List.replicate ((64 + 56 - (len + 1) % 64) % 64) 0 ++
  [len * 8 / 2 ^ 56 % 256, len * 8 / 2 ^ 48 % 256, len * 8 / 2 ^ 40 % 256,
   len * 8 / 2 ^ 32 % 256, len * 8 / 2 ^ 24 % 256, len * 8 / 2 ^ 16 % 256,
   len * 8 / 2 ^ 8 % 256, len * 8 % 256]

/-- The sixteen big-endian 32-bit words of one 64-byte block. -/
def blockWords (block : List Nat) : List Nat :=
  (List.range 16).map fun i =>
    block.getD (4 * i) 0 * 2 ^ 24 + block.getD (4 * i + 1) 0 * 2 ^ 16 +
    block.getD (4 * i + 2) 0 * 2 ^ 8 + block.getD (4 * i + 3) 0

/-- Extend sixteen message words to the 64-word schedule. -/
def sha256Schedule (ws : List Nat) : List Nat :=
  (List.range 48).foldl
    (fun acc _ =>
      let n := acc.length
      acc ++ [(acc.getD (n - 16) 0 + sSig0 (acc.getD (n - 15) 0) +
               acc.getD (n - 7) 0 + sSig1 (acc.getD (n - 2) 0)) % 2 ^ 32])
    ws

/-- One SHA-256 round with constant `k` and schedule word `w`. -/
def sha256Round (st : Sha256State) (k w : Nat) : Sha256State :=
  let t1 := (st.w7 + bSig1 st.w4 + chFn st.w4 st.w5 st.w6 + k + w) % 2 ^ 32
  let t2 := (bSig0 st.w0 + majFn st.w0 st.w1 st.w2) % 2 ^ 32
  ⟨(t1 + t2) % 2 ^ 32, st.w0, st.w1, st.w2, (st.w3 + t1) % 2 ^ 32,
   st.w4, st.w5, st.w6⟩

/-- Compress one 64-byte block into the running hash state. -/
def sha256Compress (st : Sha256State) (block : List Nat) : Sha256State :=
  let ws := sha256Schedule (blockWords block)
  let e := (sha256K.zip ws).foldl (fun s p => sha256Round s p.1 p.2) st
  ⟨(st.w0 + e.w0) % 2 ^ 32, (st.w1 + e.w1) % 2 ^ 32, (st.w2 + e.w2) % 2 ^ 32,
   (st.w3 + e.w3) % 2 ^ 32, (st.w4 + e.w4) % 2 ^ 32, (st.w5 + e.w5) % 2 ^ 32,
   (st.w6 + e.w6) % 2 ^ 32, (st.w7 + e.w7) % 2 ^ 32⟩

/-- Big-endian bytes of one 32-bit word. -/
def wordBytes (w : Nat) : List Nat :=
  [w / 2 ^ 24 % 256, w / 2 ^ 16 % 256, w / 2 ^ 8 % 256, w % 256]

/-- The 32-byte digest of a final hash state. -/
def stateBytes (st : Sha256State) : List Nat :=
  wordBytes st.w0 ++ wordBytes st.w1 ++ wordBytes st.w2 ++ wordBytes st.w3 ++
  wordBytes st.w4 ++ wordBytes st.w5 ++ wordBytes st.w6 ++ wordBytes st.w7

/-- `hashlib.sha256(msg).digest()`: the 32-byte SHA-256 digest. -/
def sha256 (msg : List Nat) : List Nat :=
  let padded := msg ++ sha256Pad msg.length
  stateBytes <|
    (List.range (padded.length / 64)).foldl
      (fun st i => sha256Compress st ((padded.drop (64 * i)).take 64))
      sha256Init

/-- Lowercase hexadecimal rendering of a byte string, as Python
`.hexdigest()` produces. -/
def toHexString (bs : List Nat) : String :=
  String.mk ((bs.map fun b => [hexDigit (b / 16), hexDigit (b % 16)]).flatten)

/-- `hashlib.sha256(msg).hexdigest()`. -/
def sha256Hex (msg : List Nat) : String := toHexString (sha256 msg)

/-- `hmac.new(key, msg, hashlib.sha256).digest()` (RFC 2104 with a 64-byte
block size, exactly what CPython `hmac` does for SHA-256). -/
def hmacSha256 (key msg : List Nat) : List Nat :=
  let key1 := if 64 < key.length then sha256 key else key
  let key0 := key1 ++ List.replicate (64 - key1.length) 0
  let ipad := key0.map fun b => b ^^^ 0x36
  let opad := key0.map fun b => b ^^^ 0x5C
  sha256 (opad ++ sha256 (ipad ++ msg))

/-- `hmac.new(key, msg, hashlib.sha256).hexdigest()`. -/
def hmacSha256Hex (key msg : List Nat) : String := toHexString (hmacSha256 key msg)

/-! ### The signer `sign_paapi_request` (app.py lines 51-106)

The Python function reads `datetime.datetime.utcnow()`; here the captured
UTC instant is an explicit `DateTime` argument, the only input beyond the
seven parameters of the Python signature. -/

/-- A UTC instant as captured by `datetime.datetime.utcnow()`. -/
structure DateTime where
  year : Nat
  month : Nat
  day : Nat
  hour : Nat
  minute : Nat
  second : Nat

/-- Zero-pad a number to two digits (`strftime` field formatting). -/
def pad2 (n : Nat) : String :=
  if n < 10 then "0" ++ toString n else toString n

/-- Zero-pad a number to four digits (`strftime` `%Y`). -/
def pad4 (n : Nat) : String :=
  if n < 10 then "000" ++ toString n
  else if n < 100 then "00" ++ toString n
  else if n < 1000 then "0" ++ toString n
  else toString n

/-- `t.strftime('%Y%m%dT%H%M%SZ')` — the full `x-amz-date` timestamp. -/
def amz_date (t : DateTime) : String :=
  pad4 t.year ++ pad2 t.month ++ pad2 t.day ++ "T" ++
  pad2 t.hour ++ pad2 t.minute ++ pad2 t.second ++ "Z"

/-- `t.strftime('%Y%m%d')` — the date-only stamp. -/
def date_stamp (t : DateTime) : String :=
  pad4 t.year ++ pad2 t.month ++ pad2 t.day

/-- Python `sep.join(parts)`. -/
def pyJoin (sep : String) : List String → String
  | [] => ""
  | [x] => x
  | x :: y :: rest => x ++ sep ++ pyJoin sep (y :: rest)

/-- `canonical_headers` (app.py line 58). -/
def canonical_headers (host amzdate : String) : String :=
  "host:" ++ host ++ "\n" ++ "x-amz-date:" ++ amzdate ++ "\n"

/-- `payload_str` (app.py line 61): compact JSON serialization. -/
def payload_str (payload : Json) : String := dumpsCompact payload

/-- `payload_hash` (app.py line 62). -/
def payload_hash (payload : Json) : String :=
  sha256Hex (utf8Encode (payload_str payload))

/-- `canonical_request` (app.py lines 64-71). -/
def canonical_request (host api_path : String) (payload : Json)
    (amzdate : String) : String :=
  pyJoin "\n"
    ["POST", api_path, "", canonical_headers host amzdate, "host;x-amz-date",
     payload_hash payload]

/-- `credential_scope` (app.py line 74). -/
def credential_scope (datestamp region service : String) : String :=
  pyJoin "/" [datestamp, region, service, "aws4_request"]

/-- `string_to_sign` (app.py lines 75-80). -/
def string_to_sign (amzdate datestamp region service : String)
    (canonicalRequest : String) : String :=
  pyJoin "\n"
    ["AWS4-HMAC-SHA256", amzdate, credential_scope datestamp region service,
     sha256Hex (utf8Encode canonicalRequest)]

/-- `sign_key` (app.py lines 82-83). -/
def sign_key (key : List Nat) (msg : String) : List Nat :=
  hmacSha256 key (utf8Encode msg)

/-- `k_signing` (app.py lines 85-88): the four-step key derivation chain
exactly as composed in the source. -/
def k_signing (secret_key datestamp region service : String) : List Nat :=
  sign_key
    (sign_key (sign_key (sign_key (utf8Encode ("AWS4" ++ secret_key)) datestamp)
      region) service)
    "aws4_request"

/-- `signature` (app.py line 90). -/
def signatureHex (secret_key datestamp region service stringToSign : String) :
    String :=
  hmacSha256Hex (k_signing secret_key datestamp region service)
    (utf8Encode stringToSign)

/-- `authorization_header` (app.py lines 92-97). -/
def authorization_header (access_key credentialScope signatureValue : String) :
    String :=
  "AWS4-HMAC-SHA256" ++ " " ++
  "Credential=" ++ access_key ++ "/" ++ credentialScope ++ ", " ++
  "SignedHeaders=" ++ "host;x-amz-date" ++ ", " ++
  "Signature=" ++ signatureValue

/-- `sign_paapi_request` (app.py lines 51-106): the returned dict, as an
insertion-ordered association list. -/
def sign_paapi_request (access_key secret_key host region service
    api_path : String) (payload : Json) (t : DateTime) :
    List (String × String) :=
  let amzdate := amz_date t
  let datestamp := date_stamp t
  let canonicalRequest := canonical_request host api_path payload amzdate
  let credentialScope := credential_scope datestamp region service
  let stringToSign :=
    string_to_sign amzdate datestamp region service canonicalRequest
  let signatureValue :=
    signatureHex secret_key datestamp region service stringToSign
  [("Content-Type", "application/json; charset=utf-8"),
   ("X-Amz-Date", amzdate),
   ("X-Amz-Target", service ++ ".SearchItems"),
   ("Authorization",
     authorization_header access_key credentialScope signatureValue),
   ("Host", host)]

/-! ### The `/api/search` handler `search_products` (app.py lines 110-157)

The handler model is parameterised by the configuration read from the
environment at startup, the clock instant, the parsed request body and the
upstream JSON response; it records the outbound request the handler hands to
`requests.post` together with the JSON body returned to the client.  The
network call, transport errors and the upstream error branches (lines
159-172) stay with the excluded HTTP-client collaborator; the `TypeError`
the response parsing of lines 144-145 can raise is in scope, answered with
a 500 by the catch-all of line 173. -/

/-- Configuration loaded from the environment (app.py lines 19-24).
`ASSOCIATE_TAG` may be absent (Python `None`, serialized as JSON `null`);
the access and secret keys must be present for the signer's string
concatenations to be defined. -/
structure Config where
  associateTag : Option Json
  accessKeyId : String
  secretAccessKey : String
  hostName : String
  region : String

/-- `SERVICE` (app.py line 24). -/
def SERVICE : String := "ProductAdvertisingAPI"

/-- The `PartnerTag` value placed in the payload: the configured tag or
JSON `null` when the environment variable is unset. -/
def partnerTagJson (cfg : Config) : Json :=
  match cfg.associateTag with
  | some j => j
  | none => Json.null

/-- The payload dict built by the handler (app.py lines 122-134), in
insertion order. -/
def handlerPayload (keywords : Json) (cfg : Config) : Json :=
  Json.obj
    [("Keywords", keywords),
     ("SearchIndex", Json.str "All"),
     ("PartnerTag", partnerTagJson cfg),
     ("PartnerType", Json.str "Associates"),
     ("ItemCount", Json.num 10),
     ("Resources", Json.arr
       [Json.str "Images.Primary.Medium",
        Json.str "ItemInfo.Title",
        Json.str "Offers.Listings.Price",
        Json.str "Offers.Listings.IsPrimeEligible"])]

/-- First element of a JSON array, Python `xs[0]`. -/
def firstElem : Json → Option Json
  | Json.arr (x :: _) => some x
  | _ => none

/-- The per-item flag computed at app.py lines 146-150: `Offers` present,
`Listings` present and truthy, and the first listing's
`IsPrimeEligible` (default `False`) truthy. -/
def isPrimeEligibleOf (item : Json) : Bool :=
  match jget item "Offers" with
  | none => false
  | some offers =>
    match jget offers "Listings" with
    | none => false
    | some listings =>
      if truthy listings then
        match firstElem listings with
        | some firstListing =>
            truthy ((jget firstListing "IsPrimeEligible").getD (Json.bool false))
        | none => false
      else false

/-- The filtering loop (app.py lines 143-155): an item is skipped exactly
when `prime_only` is truthy and the item is not prime eligible; order is
preserved. -/
def filterItems (primeOnly : Json) (items : List Json) : List Json :=
  items.filter fun item => !(truthy primeOnly && !isPrimeEligibleOf item)

/-- Does the second character list start with the first? -/
def charsStart : List Char → List Char → Bool
  | [], _ => true
  | _ :: _, [] => false
  | p :: ps, c :: cs => p == c && charsStart ps cs

/-- Python substring test `pattern in s`, on the character lists: does the
second list contain the first as a contiguous run?  (The empty pattern is
always contained, as in Python.) -/
def charsHave (pattern : List Char) : List Char → Bool
  | [] => pattern.isEmpty
  | c :: cs => charsStart pattern (c :: cs) || charsHave pattern cs

/-- Python `key in container` with a string key (app.py line 144): a key
test on a dict, a substring test on a string, elementwise equality on a
list; `none` models the `TypeError` Python raises on numbers, booleans and
`None`, which the line-173 catch-all answers with a 500. -/
def pyContains : Json → String → Option Bool
  | Json.obj fields, key => some (jgetFields fields key).isSome
  | Json.str s, key => some (charsHave key.data s.data)
  | Json.arr items, key =>
      some (items.any fun item =>
        match item with
        | Json.str s => s == key
        | _ => false)
  | _, _ => none

/-- Python `container[key]` with a string key (app.py lines 144-145): a
dict lookup; `none` models the `TypeError` raised on every other type.
Under the line-144 membership guard a dict always has the key, so the
lookup result is the subscripted value. -/
def pySubscript : Json → String → Option Json
  | Json.obj fields, key => jgetFields fields key
  | _, _ => none

/-- Python iteration `for item in x` (app.py line 145): a list yields its
elements, a string its one-character strings, a dict its keys; `none`
models the `TypeError` on the non-iterable types. -/
def pyIter : Json → Option (List Json)
  | Json.arr items => some items
  | Json.str s => some (s.data.map fun c => Json.str (String.mk [c]))
  | Json.obj fields => some (fields.map fun kv => Json.str kv.1)
  | _ => none

/-- The item list app.py lines 144-145 hand to the filtering loop, with
Python error semantics: `some []` when a membership test is false (the loop
is skipped), `some items` when the guard passes and `...['SearchResult']
['Items']` is iterable, and `none` when a membership test, a subscript or
the iteration raises `TypeError` — the line-173 catch-all then answers
500. -/
def extractItems (apiResponse : Json) : Option (List Json) :=
  match pyContains apiResponse "SearchResult" with
  | none => none
  | some false => some []
  | some true =>
    match pySubscript apiResponse "SearchResult" with
    | none => none
    | some searchResult =>
      match pyContains searchResult "Items" with
      | none => none
      | some false => some []
      | some true =>
        match pySubscript searchResult "Items" with
        | none => none
        | some itemsValue => pyIter itemsValue

/-- Outcome of one handler invocation, up to the excluded network
collaborator: the early 400 response; the line-173 catch-all 500, reached
when response parsing raises after the outbound request (endpoint, headers,
body string) was already signed and handed to `requests.post`; or the
success case with the outbound request and the JSON body returned to the
client for the given upstream response. -/
inductive HandlerResult where
  | clientError (status : Nat) (body : Json)
  | serverError (endpoint : String) (headers : List (String × String))
      (sentBody : String) (status : Nat)
  | success (endpoint : String) (headers : List (String × String))
      (sentBody : String) (respBody : Json)

/-- `search_products` (app.py lines 110-157).  `reqBody` is the dict from
`request.get_json()`, `upstream` the decoded upstream JSON.  Line 139 sends
`json.dumps(payload)` — the default separators — as the request body.  A
`TypeError` from the parsing of lines 144-145 is the `serverError` case
(the line-173 catch-all, status 500); exceptions the loop body itself can
raise on exotic item shapes are not modelled and are instead excluded by
the `safeItem` hypotheses of the theorems that need the success path. -/
def search_products (cfg : Config) (t : DateTime) (reqBody upstream : Json) :
    HandlerResult :=
  let keywords := (jget reqBody "keywords").getD Json.null
  let prime_only := (jget reqBody "primeOnly").getD (Json.bool true)
  if !truthy keywords then
    HandlerResult.clientError 400
      (Json.obj [("error", Json.str "Keywords are required.")])
  else
    let api_path := "/paapi5/searchitems"
    let api_endpoint := "https://" ++ cfg.hostName ++ api_path
    let payload := handlerPayload keywords cfg
    let headers := sign_paapi_request cfg.accessKeyId cfg.secretAccessKey
      cfg.hostName cfg.region SERVICE api_path payload t
    let sentBody := dumpsDefault payload
    match extractItems upstream with
    | none => HandlerResult.serverError api_endpoint headers sentBody 500
    | some items =>
      let filtered_items := filterItems prime_only items
      HandlerResult.success api_endpoint headers sentBody
        (Json.obj
          [("Items", Json.arr filtered_items),
           ("TotalFilteredCount", Json.num filtered_items.length)])

/-! ### Auxiliary observations and specification-side definitions -/

/-- Whether a character is a lowercase hexadecimal digit. -/
def isLowerHexChar (c : Char) : Bool :=
  ('0' ≤ c && c ≤ '9') || ('a' ≤ c && c ≤ 'f')

/-- Value of a header in a header mapping (first binding wins). -/
def headerValue : List (String × String) → String → Option String
  | [], _ => none
  | (k, v) :: rest, key => if k = key then some v else headerValue rest key

/-- The body string the handler hands to `requests.post`, when it gets
that far (it does on both the success and the parse-error path, where the
request was sent before the response parse raised). -/
def sentBodyOf : HandlerResult → Option String
  | HandlerResult.success _ _ sentBody _ => some sentBody
  | HandlerResult.serverError _ _ sentBody _ => some sentBody
  | HandlerResult.clientError _ _ => none

/-- The JSON body returned to the client on the success path; `none` on
the error responses. -/
def respBodyOf : HandlerResult → Option Json
  | HandlerResult.success _ _ _ respBody => some respBody
  | HandlerResult.serverError _ _ _ _ => none
  | HandlerResult.clientError _ _ => none

/-- The HTTP status of a handler result (`jsonify` answers 200 on the
success path). -/
def statusOf : HandlerResult → Nat
  | HandlerResult.clientError status _ => status
  | HandlerResult.serverError _ _ _ status => status
  | HandlerResult.success _ _ _ _ => 200

/-- The signing key as the specification words it: the 4-step HMAC-SHA256
chain over binary digests
`HMAC(HMAC(HMAC(HMAC(utf8("AWS4"+secretKey), dateStamp), region), service),
"aws4_request")`. -/
def specSigningKey (secretKey dateStamp region service : String) : List Nat :=
  hmacSha256
    (hmacSha256
      (hmacSha256
        (hmacSha256 (utf8Encode ("AWS4" ++ secretKey)) (utf8Encode dateStamp))
        (utf8Encode region))
      (utf8Encode service))
    (utf8Encode "aws4_request")

/-- The canonical request as the specification words it: the newline-join
of the literal `POST`, the uri path, the empty string, the canonical
headers block (lowercase names, host before x-amz-date, trailing newline),
the literal signed-headers list, and the SHA-256 hex digest of the UTF-8
payload bytes. -/
def specCanonicalRequest (host api_path : String) (payload : Json)
    (amzdate : String) : String :=
  "POST" ++ "\n" ++ api_path ++ "\n" ++ "" ++ "\n" ++
  ("host:" ++ host ++ "\n" ++ "x-amz-date:" ++ amzdate ++ "\n") ++ "\n" ++
  "host;x-amz-date" ++ "\n" ++
  sha256Hex (utf8Encode (dumpsCompact payload))

/-- The string-to-sign as the specification words it: the newline-join of
the algorithm literal, the full timestamp, the credential scope
`datestamp/region/service/aws4_request`, and the SHA-256 hex digest of the
UTF-8 canonical-request bytes. -/
def specStringToSign (amzdate datestamp region service
    canonicalRequest : String) : String :=
  "AWS4-HMAC-SHA256" ++ "\n" ++ amzdate ++ "\n" ++
  (datestamp ++ "/" ++ region ++ "/" ++ service ++ "/" ++ "aws4_request") ++
  "\n" ++ sha256Hex (utf8Encode canonicalRequest)

/-- The filter as the specification words it: keep exactly the items whose
first `Offers.Listings` listing carries `IsPrimeEligible` equal to `true`. -/
def specKeepItem (item : Json) : Bool :=
  match jget item "Offers" with
  | none => false
  | some offers =>
    match jget offers "Listings" with
    | some (Json.arr (firstListing :: _)) =>
      match jget firstListing "IsPrimeEligible" with
      | some (Json.bool true) => true
      | _ => false
    | _ => false

/-- The shape hypothesis of the filtering claim: the item is a dict that
either lacks an `Offers.Listings` entry (no `Offers` key, no `Listings`
key, or an empty listings array) or has a first listing that is a dict
carrying a boolean `IsPrimeEligible`. -/
def wfItem (item : Json) : Bool :=
  item.isObj &&
  match jget item "Offers" with
  | none => true
  | some offers =>
    offers.isObj &&
    match jget offers "Listings" with
    | none => true
    | some (Json.arr []) => true
    | some (Json.arr (firstListing :: _)) =>
      firstListing.isObj &&
      match jget firstListing "IsPrimeEligible" with
      | some (Json.bool _) => true
      | _ => false
    | some _ => false

/-- A request body with `primeOnly` explicitly set to `true` appended
(identity on non-dict bodies). -/
def withPrimeOnlyTrue : Json → Json
  | Json.obj fields => Json.obj (fields ++ [("primeOnly", Json.bool true)])
  | j => j

/-- A concrete configuration used for counterexamples and witnesses. -/
def cfgEx : Config :=
  ⟨some (Json.str "mytag-21"), "AKIDEXAMPLE", "secret",
   "webservices.amazon.in", "eu-west-1"⟩

/-- A concrete frozen clock instant, 2024-01-01T00:00:00Z. -/
def tEx : DateTime := ⟨2024, 1, 1, 0, 0, 0⟩

/-- A concrete request body carrying only keywords. -/
def bodyEx : Json := Json.obj [("keywords", Json.str "shoes")]

/-- The payload the handler builds for `bodyEx` under `cfgEx`. -/
def payloadEx : Json := handlerPayload (Json.str "shoes") cfgEx

/-- Whether the upstream response lacks a `SearchResult` key or a
`SearchResult.Items` key. -/
def lacksItemsList (upstream : Json) : Bool :=
  match jget upstream "SearchResult" with
  | none => true
  | some searchResult => (jget searchResult "Items").isNone

/-- Items on which the embedded filter agrees with the Python loop: the
Python code raises (and the handler answers 500) on result items of other
shapes, e.g. a non-dict item whose text contains `Offers`. -/
def safeItem (item : Json) : Bool :=
  item.isObj &&
  match jget item "Offers" with
  | none => true
  | some offers =>
    offers.isObj &&
    match jget offers "Listings" with
    | none => true
    | some (Json.arr []) => true
    | some (Json.arr (firstListing :: _)) => firstListing.isObj
    | some _ => false

/-- A result item whose first listing is prime eligible. -/
def itemPrimeEx : Json :=
  Json.obj [("ASIN", Json.str "B001"),
    ("Offers", Json.obj [("Listings", Json.arr
      [Json.obj [("IsPrimeEligible", Json.bool true)]])])]

/-- A result item with no listings at all. -/
def itemNoOffersEx : Json := Json.obj [("ASIN", Json.str "B002")]

/-- A result item whose first listing is not prime eligible. -/
def itemNotPrimeEx : Json :=
  Json.obj [("ASIN", Json.str "B003"),
    ("Offers", Json.obj [("Listings", Json.arr
      [Json.obj [("IsPrimeEligible", Json.bool false)]])])]

/-- A concrete upstream item list exercising all three filter outcomes. -/
def itemsEx : List Json := [itemPrimeEx, itemNoOffersEx, itemNotPrimeEx]

/-! ### Helper lemmas -/

/-- Every character `hexDigit` produces is a lowercase hex digit. -/
theorem isLowerHexChar_hexDigit (n : Nat) : isLowerHexChar (hexDigit n) = true := by
  unfold hexDigit
  split <;> decide

/-- Every character of a `toHexString` rendering is a lowercase hex digit. -/
theorem isLowerHexChar_of_mem_toHexString (bs : List Nat) :
    ∀ c ∈ (toHexString bs).data, isLowerHexChar c = true := by
  intro c hc
  simp only [toHexString, List.mem_flatten, List.mem_map] at hc
  obtain ⟨cs, ⟨b, _, rfl⟩, hcs⟩ := hc
  simp only [List.mem_cons, List.mem_singleton, List.not_mem_nil, or_false] at hcs
  rcases hcs with rfl | rfl
  · exact isLowerHexChar_hexDigit _
  · exact isLowerHexChar_hexDigit _

/-- `toHexString` spends exactly two characters per byte. -/
theorem toHexString_length (bs : List Nat) :
    (toHexString bs).length = 2 * bs.length := by
  induction bs with
  | nil => rfl
  | cons b rest ih =>
    simp only [toHexString, String.length_mk, List.map_cons, List.flatten_cons,
      List.length_append, List.length_cons, List.length_nil] at ih ⊢
    omega

/-- A SHA-256 digest is 32 bytes long, whatever the message. -/
theorem sha256_length (msg : List Nat) : (sha256 msg).length = 32 := rfl

/-- An HMAC-SHA256 digest is 32 bytes long. -/
theorem hmacSha256_length (key msg : List Nat) :
    (hmacSha256 key msg).length = 32 := rfl

/-- The hex signature is 64 characters long. -/
theorem signatureHex_length (secret_key datestamp region service
    stringToSign : String) :
    (signatureHex secret_key datestamp region service stringToSign).length = 64 := by
  unfold signatureHex hmacSha256Hex
  rw [toHexString_length, hmacSha256_length]

/-! ### Claim theorems -/

/-- C2: for a fixed tuple of access key, secret key, host, region, service,
uri path, payload and a fixed UTC timestamp, two invocations of
`sign_paapi_request` produce byte-identical header mappings — every header
name and value equal.  In the embedding the captured `utcnow()` instant is
the explicit `t` argument; the function has no other input, so the result
is the same mapping both times. -/
theorem c2_signing_deterministic (access_key secret_key host region service
    api_path : String) (payload : Json) (t : DateTime) :
    sign_paapi_request access_key secret_key host region service api_path
        payload t =
      sign_paapi_request access_key secret_key host region service api_path
        payload t ∧
    ∀ name : String,
      headerValue (sign_paapi_request access_key secret_key host region
        service api_path payload t) name =
      headerValue (sign_paapi_request access_key secret_key host region
        service api_path payload t) name :=
  ⟨rfl, fun _ => rfl⟩

/-- C3: the signing key used by `sign_paapi_request` equals the 4-step
HMAC-SHA256 chain over binary digests keyed in turn by
`utf8("AWS4" + secretKey)`, `dateStamp`, `region`, `service`,
`"aws4_request"`, and the final signature is the lowercase hex rendering of
`HMAC-SHA256(kSigning, stringToSign)`. -/
theorem c3_signing_key_chain (secret_key datestamp region service
    stringToSign : String) :
    k_signing secret_key datestamp region service =
      specSigningKey secret_key datestamp region service ∧
    signatureHex secret_key datestamp region service stringToSign =
      toHexString (hmacSha256 (specSigningKey secret_key datestamp region
        service) (utf8Encode stringToSign)) ∧
    ∀ c ∈ (signatureHex secret_key datestamp region service
        stringToSign).data, isLowerHexChar c = true :=
  ⟨rfl, rfl, isLowerHexChar_of_mem_toHexString _⟩

/-- C6: the header mapping returned by `sign_paapi_request` has exactly the
five keys `Content-Type`, `X-Amz-Date`, `X-Amz-Target`, `Authorization`,
`Host`, in that order, with `Content-Type` the JSON content type,
`X-Amz-Target` equal to `service ++ ".SearchItems"`, `X-Amz-Date` the full
timestamp and `Host` the host input. -/
theorem c6_header_set (access_key secret_key host region service
    api_path : String) (payload : Json) (t : DateTime) :
    (∃ auth,
      sign_paapi_request access_key secret_key host region service api_path
          payload t =
        [("Content-Type", "application/json; charset=utf-8"),
         ("X-Amz-Date", amz_date t),
         ("X-Amz-Target", service ++ ".SearchItems"),
         ("Authorization", auth),
         ("Host", host)]) ∧
    (sign_paapi_request access_key secret_key host region service api_path
        payload t).map Prod.fst =
      ["Content-Type", "X-Amz-Date", "X-Amz-Target", "Authorization",
       "Host"] :=
  ⟨⟨_, rfl⟩, rfl⟩

/-- C4: the canonical request built by `sign_paapi_request` (its
`canonical_request` value) is the newline-join of exactly the literal
`POST`, the uri path, the empty string, the canonical headers block with
lowercase names, host before x-amz-date and a trailing newline, the literal
`host;x-amz-date`, and the SHA-256 hex digest of the UTF-8 payload bytes;
and its string-to-sign is the newline-join of `AWS4-HMAC-SHA256`, the full
timestamp, `datestamp/region/service/aws4_request`, and the SHA-256 hex
digest of the UTF-8 canonical-request bytes. -/
theorem c4_canonical_request_structure (host api_path amzdate datestamp
    region service canonicalRequest : String) (payload : Json) :
    canonical_request host api_path payload amzdate =
      specCanonicalRequest host api_path payload amzdate ∧
    string_to_sign amzdate datestamp region service canonicalRequest =
      specStringToSign amzdate datestamp region service canonicalRequest := by
  constructor
  · unfold canonical_request specCanonicalRequest canonical_headers
      payload_hash payload_str
    simp [pyJoin, String.append_assoc]
    simp only [show ("\n\nhost;x-amz-date\n" : String) =
        "\n" ++ ("\n" ++ "host;x-amz-date\n") from rfl,
      show ("\n\n" : String) = "\n" ++ "\n" from rfl, String.append_assoc]
  · unfold string_to_sign specStringToSign credential_scope
    simp [pyJoin, String.append_assoc]

/-- C5: the Authorization header produced by `sign_paapi_request` always
equals `AWS4-HMAC-SHA256 Credential=<accessKey>/<dateStamp>/<region>/
<service>/aws4_request, SignedHeaders=host;x-amz-date, Signature=<sig>`
with `<sig>` a 64-character lowercase-hex string; and in the concrete
scenario (credentials AKIDEXAMPLE/secret, host webservices.amazon.in,
region eu-west-1, service ProductAdvertisingAPI, path /paapi5/searchitems,
payload with the single field Keywords="shoes", frozen clock
2024-01-01T00:00:00Z) it starts with the expected literal prefix. -/
theorem c5_authorization_header_format :
    (∀ access_key secret_key host region service api_path : String,
      ∀ payload : Json, ∀ t : DateTime,
      ∃ sig : String,
        headerValue (sign_paapi_request access_key secret_key host region
            service api_path payload t) "Authorization" =
          some ("AWS4-HMAC-SHA256 Credential=" ++ access_key ++ "/" ++
            date_stamp t ++ "/" ++ region ++ "/" ++ service ++
            "/aws4_request, SignedHeaders=host;x-amz-date, Signature=" ++
            sig) ∧
        sig.length = 64 ∧ ∀ c ∈ sig.data, isLowerHexChar c = true) ∧
    (∃ rest : String,
      headerValue (sign_paapi_request "AKIDEXAMPLE" "secret"
          "webservices.amazon.in" "eu-west-1" "ProductAdvertisingAPI"
          "/paapi5/searchitems" (Json.obj [("Keywords", Json.str "shoes")])
          tEx) "Authorization" =
        some ("AWS4-HMAC-SHA256 Credential=AKIDEXAMPLE/20240101/eu-west-1/ProductAdvertisingAPI/aws4_request, SignedHeaders=host;x-amz-date, Signature=" ++
          rest) ∧
      rest.length = 64 ∧ ∀ c ∈ rest.data, isLowerHexChar c = true) := by
  constructor
  · intro access_key secret_key host region service api_path payload t
    refine ⟨signatureHex secret_key (date_stamp t) region service
      (string_to_sign (amz_date t) (date_stamp t) region service
        (canonical_request host api_path payload (amz_date t))), ?_,
      signatureHex_length _ _ _ _ _,
      isLowerHexChar_of_mem_toHexString _⟩
    simp only [sign_paapi_request, headerValue]
    norm_num
    unfold authorization_header credential_scope
    simp [pyJoin, String.append_assoc]
  · refine ⟨signatureHex "secret" (date_stamp tEx) "eu-west-1"
      "ProductAdvertisingAPI"
      (string_to_sign (amz_date tEx) (date_stamp tEx) "eu-west-1"
        "ProductAdvertisingAPI"
        (canonical_request "webservices.amazon.in" "/paapi5/searchitems"
          (Json.obj [("Keywords", Json.str "shoes")]) (amz_date tEx))), ?_,
      signatureHex_length _ _ _ _ _,
      isLowerHexChar_of_mem_toHexString _⟩
    simp only [sign_paapi_request, headerValue]
    norm_num
    unfold authorization_header credential_scope
    have hds : date_stamp tEx = "20240101" := rfl
    rw [hds]
    simp [pyJoin, String.append_assoc]

/-- The flag the filtering loop computes agrees with the claim's reading of
it on every well-shaped item. -/
theorem isPrime_eq_spec_of_wf (item : Json) (h : wfItem item = true) :
    isPrimeEligibleOf item = specKeepItem item := by
  unfold wfItem at h
  unfold isPrimeEligibleOf specKeepItem
  cases hof : jget item "Offers" with
  | none => rfl
  | some offers =>
    rw [hof] at h
    simp only [Bool.and_eq_true] at h
    obtain ⟨-, -, h⟩ := h
    dsimp only
    cases hl : jget offers "Listings" with
    | none => rfl
    | some listings =>
      rw [hl] at h
      dsimp only
      cases listings with
      | null => exact Bool.noConfusion h
      | bool b => exact Bool.noConfusion h
      | num n => exact Bool.noConfusion h
      | str s => exact Bool.noConfusion h
      | obj fields => exact Bool.noConfusion h
      | arr l =>
        cases l with
        | nil => rfl
        | cons firstListing rest =>
          simp only [Bool.and_eq_true] at h
          obtain ⟨-, h⟩ := h
          dsimp only [truthy, firstElem, List.isEmpty_cons, Bool.not_false]
          cases hip : jget firstListing "IsPrimeEligible" with
          | none => rw [hip] at h; exact Bool.noConfusion h
          | some v =>
            rw [hip] at h
            cases v with
            | null => exact Bool.noConfusion h
            | bool b => cases b with | true => rfl | false => rfl
            | num n => exact Bool.noConfusion h
            | str s => exact Bool.noConfusion h
            | arr l2 => exact Bool.noConfusion h
            | obj f2 => exact Bool.noConfusion h

/-- C7: over lists of result items that each either lack an
`Offers.Listings` entry or carry a boolean `IsPrimeEligible` on their first
listing, the filtering loop with primeOnly=true keeps exactly the items
whose first listing has `IsPrimeEligible` equal to `true` (items with no
listings are always excluded), and with primeOnly=false it keeps every
item. -/
theorem c7_prime_filter (items : List Json)
    (h : ∀ item ∈ items, wfItem item = true) :
    filterItems (Json.bool true) items = items.filter specKeepItem ∧
    filterItems (Json.bool false) items = items := by
  constructor
  · unfold filterItems
    refine List.filter_congr ?_
    intro item hitem
    simp [truthy, isPrime_eq_spec_of_wf item (h item hitem)]
  · unfold filterItems
    simp [truthy]

/-- Witness for C7: the filter claims hold at a concrete item list with a
prime-eligible item, an item with no listings, and a non-eligible item. -/
theorem c7_prime_filter_witness :
    (∀ item ∈ itemsEx, wfItem item = true) ∧
    (filterItems (Json.bool true) itemsEx = itemsEx.filter specKeepItem ∧
     filterItems (Json.bool false) itemsEx = itemsEx) :=
  ⟨by decide, c7_prime_filter itemsEx (by decide)⟩

/-- C8: for a dict request body whose `keywords` entry is missing or falsy
(empty string, `null`, ...), the handler answers 400 with the error body
`Keywords are required.` and produces no outbound request — the result is
`clientError`, which carries no signed headers and no sent body.  The
`isObj` hypothesis mirrors `request.get_json()` delivering a dict; a
non-dict body makes the Python handler hit its generic 500 branch
instead. -/
theorem c8_missing_keywords_rejected (cfg : Config) (t : DateTime)
    (reqBody upstream : Json) (_hobj : reqBody.isObj = true)
    (hkw : truthy ((jget reqBody "keywords").getD Json.null) = false) :
    search_products cfg t reqBody upstream =
      HandlerResult.clientError 400
        (Json.obj [("error", Json.str "Keywords are required.")]) := by
  simp [search_products, hkw]

/-- Witness for C8: the empty dict body is rejected with the 400 error. -/
theorem c8_missing_keywords_rejected_witness :
    (Json.obj []).isObj = true ∧
    truthy ((jget (Json.obj []) "keywords").getD Json.null) = false ∧
    search_products cfgEx tEx (Json.obj []) (Json.obj []) =
      HandlerResult.clientError 400
        (Json.obj [("error", Json.str "Keywords are required.")]) :=
  ⟨rfl, rfl,
    c8_missing_keywords_rejected cfgEx tEx (Json.obj []) (Json.obj []) rfl rfl⟩

/-- Appending a fresh key at the end of a dict leaves other lookups
unchanged. -/
theorem jgetFields_append_ne (fields : List (String × Json)) (key k : String)
    (v : Json) (hne : k ≠ key) :
    jgetFields (fields ++ [(k, v)]) key = jgetFields fields key := by
  induction fields with
  | nil => simp [jgetFields, hne]
  | cons f rest ih =>
    simp only [List.cons_append, jgetFields]
    split
    · rfl
    · exact ih

/-- Appending a key at the end of a dict that lacks it makes the lookup
find the appended value. -/
theorem jgetFields_append_last (fields : List (String × Json)) (k : String)
    (v : Json) (h : jgetFields fields k = none) :
    jgetFields (fields ++ [(k, v)]) k = some v := by
  induction fields with
  | nil => simp [jgetFields]
  | cons f rest ih =>
    simp only [List.cons_append, jgetFields] at h ⊢
    split at h
    · exact Option.noConfusion h
    · simp only [*]
      exact ih h

/-- C9: when the request body omits `primeOnly`, the handler behaves
exactly as if the body carried `primeOnly = true`: the whole handler result
is the same as for the body extended with that explicit field, so the
prime-eligibility filter is applied by default. -/
theorem c9_prime_only_defaults_true (cfg : Config) (t : DateTime)
    (reqBody upstream : Json) (h : jget reqBody "primeOnly" = none) :
    search_products cfg t reqBody upstream =
      search_products cfg t (withPrimeOnlyTrue reqBody) upstream := by
  cases reqBody with
  | null => rfl
  | bool b => rfl
  | num n => rfl
  | str s => rfl
  | arr l => rfl
  | obj fields =>
    have hkw : jget (withPrimeOnlyTrue (Json.obj fields)) "keywords" =
        jget (Json.obj fields) "keywords" := by
      simp only [withPrimeOnlyTrue, jget]
      exact jgetFields_append_ne fields "keywords" "primeOnly"
        (Json.bool true) (by decide)
    have hpo : jget (withPrimeOnlyTrue (Json.obj fields)) "primeOnly" =
        some (Json.bool true) := by
      simp only [withPrimeOnlyTrue, jget]
      exact jgetFields_append_last fields "primeOnly" (Json.bool true)
        (by simpa [jget] using h)
    simp [search_products, hkw, hpo, h]

/-- Witness for C9: `bodyEx` omits `primeOnly`, and the handler result for
it equals the result for the body with `primeOnly = true` appended. -/
theorem c9_prime_only_defaults_true_witness :
    jget bodyEx "primeOnly" = none ∧
    search_products cfgEx tEx bodyEx (Json.obj []) =
      search_products cfgEx tEx (withPrimeOnlyTrue bodyEx) (Json.obj []) :=
  ⟨rfl, c9_prime_only_defaults_true cfgEx tEx bodyEx (Json.obj []) rfl⟩

/-- A successful Python subscript means a dict lookup. -/
theorem jget_of_pySubscript (j : Json) (key : String) (v : Json)
    (h : pySubscript j key = some v) : jget j key = some v := by
  cases j with
  | obj fields => exact h
  | null => exact Option.noConfusion h
  | bool b => exact Option.noConfusion h
  | num n => exact Option.noConfusion h
  | str s => exact Option.noConfusion h
  | arr l => exact Option.noConfusion h

/-- When the upstream response lacks `SearchResult` or its `Items` (in the
`jget` sense) and the parsing of app.py lines 144-145 does not raise, the
loop is skipped: the extracted item list is empty. -/
theorem extractItems_eq_nil_of_lacks (upstream : Json) (items0 : List Json)
    (hex : extractItems upstream = some items0)
    (h : lacksItemsList upstream = true) : items0 = [] := by
  unfold extractItems at hex
  split at hex
  · exact Option.noConfusion hex
  · injection hex with h2
    exact h2.symm
  · split at hex
    · exact Option.noConfusion hex
    · rename_i searchResult hsub1
      split at hex
      · exact Option.noConfusion hex
      · injection hex with h2
        exact h2.symm
      · split at hex
        · exact Option.noConfusion hex
        · rename_i itemsValue hsub2
          exfalso
          unfold lacksItemsList at h
          rw [jget_of_pySubscript upstream "SearchResult" searchResult hsub1]
            at h
          dsimp only at h
          rw [jget_of_pySubscript searchResult "Items" itemsValue hsub2] at h
          simp at h

/-- C10, refuted as universally stated: the upstream response
`SearchResult: 5` lacks a `SearchResult.Items` key, yet at app.py line 144
the test `'Items' in api_response['SearchResult']` raises `TypeError` on
the number, so the handler answers 500 from the line-173 catch-all — an
error, not the claimed `Items = []` success response. -/
theorem c10_lacks_items_key_gives_500 :
    lacksItemsList (Json.obj [("SearchResult", Json.num 5)]) = true ∧
    truthy ((jget bodyEx "keywords").getD Json.null) = true ∧
    statusOf (search_products cfgEx tEx bodyEx
      (Json.obj [("SearchResult", Json.num 5)])) = 500 ∧
    respBodyOf (search_products cfgEx tEx bodyEx
      (Json.obj [("SearchResult", Json.num 5)])) = none :=
  ⟨rfl, by decide, rfl, rfl⟩

/-- C10, amended: whenever the handler reaches the success path, the
response body is `Items` plus `TotalFilteredCount` equal to the length of
that items list; and when the upstream response lacks a `SearchResult` key
or a `SearchResult.Items` key in a way the parsing of lines 144-145
survives (its membership tests evaluate to false — e.g. an object without
`SearchResult`, or one whose `SearchResult` is an object without `Items`),
the response is `Items = []` with count 0 rather than an error.  The
hypothesis requires the parsing not to raise (`extractItems` succeeds, else
the handler answers 500, as the counterexample shows) and the extracted
items to be shapes on which the loop body of lines 146-155 does not raise
(`safeItem`). -/
theorem c10_success_count_invariant (cfg : Config) (t : DateTime)
    (reqBody upstream : Json)
    (hkw : truthy ((jget reqBody "keywords").getD Json.null) = true)
    (hitems : ∃ items0, extractItems upstream = some items0 ∧
      items0.all safeItem = true) :
    (∃ endpoint headers sentBody items,
      search_products cfg t reqBody upstream =
        HandlerResult.success endpoint headers sentBody
          (Json.obj [("Items", Json.arr items),
            ("TotalFilteredCount", Json.num items.length)])) ∧
    (lacksItemsList upstream = true →
      respBodyOf (search_products cfg t reqBody upstream) =
        some (Json.obj [("Items", Json.arr []),
          ("TotalFilteredCount", Json.num 0)])) := by
  obtain ⟨items0, hex, -⟩ := hitems
  constructor
  · refine ⟨"https://" ++ cfg.hostName ++ "/paapi5/searchitems",
      sign_paapi_request cfg.accessKeyId cfg.secretAccessKey cfg.hostName
        cfg.region SERVICE "/paapi5/searchitems"
        (handlerPayload ((jget reqBody "keywords").getD Json.null) cfg) t,
      dumpsDefault
        (handlerPayload ((jget reqBody "keywords").getD Json.null) cfg),
      filterItems ((jget reqBody "primeOnly").getD (Json.bool true)) items0,
      ?_⟩
    simp [search_products, hkw, hex]
  · intro hmiss
    have hnil := extractItems_eq_nil_of_lacks upstream items0 hex hmiss
    simp [search_products, hkw, hex, hnil, respBodyOf, filterItems]

/-- Witness for C10: for the keywords-only body and an empty-dict upstream
response, the parsing succeeds with no items and the handler answers with
zero items and count 0. -/
theorem c10_success_count_invariant_witness :
    truthy ((jget bodyEx "keywords").getD Json.null) = true ∧
    extractItems (Json.obj []) = some [] ∧
    lacksItemsList (Json.obj []) = true ∧
    respBodyOf (search_products cfgEx tEx bodyEx (Json.obj [])) =
      some (Json.obj [("Items", Json.arr []),
        ("TotalFilteredCount", Json.num 0)]) :=
  ⟨by decide, rfl, by decide,
    (c10_success_count_invariant cfgEx tEx bodyEx (Json.obj [])
      (by decide) ⟨[], rfl, rfl⟩).2 (by decide)⟩

/-- C1: REFUTED on the code.  The handler hands `requests.post` the string
`json.dumps(payload)` (default separators with spaces, app.py line 139),
while the payload hash inside `sign_paapi_request` covers
`json.dumps(payload, separators=(',', ':'))` (app.py line 61).  For the
handler payload built from keywords `shoes` the two byte strings differ,
so the body bytes sent upstream are not the bytes whose SHA-256 digest was
signed. -/
theorem c1_sent_bytes_differ_from_hashed_bytes :
    sentBodyOf (search_products cfgEx tEx bodyEx (Json.obj [])) =
      some (dumpsDefault payloadEx) ∧
    utf8Encode (dumpsDefault payloadEx) ≠ utf8Encode (payload_str payloadEx) :=
  ⟨rfl, by decide⟩
